import Mathlib

/-!
Shallow embedding of the session/connection orchestrator from
src/src/components/chat-simple.tsx (the `Chat` component of the eliza_next
front end).  React state hooks become fields of an explicit `ChatState`
record; each event handler and effect becomes a pure function from state to
state (plus explicit outputs for transport sends, armed timers and issued
fetches).  JavaScript truthiness on optional strings and numbers is modelled
explicitly, since the source relies on `||` and `!` coercions.
-/

namespace ElizaChat

/-- Connection phase of the live channel: the `connectionStatus` React state,
`connecting | connected | error` (chat-simple.tsx line 75). -/
inductive ConnStatus
  | connecting
  | connected
  | error
deriving DecidableEq, Repr

/-- Server reachability: the `serverStatus` React state,
`checking | online | offline` (line 76). -/
inductive ServerStatus
  | checking
  | online
  | offline
deriving DecidableEq, Repr

/-- Agent registration phase: the `agentStatus` React state,
`checking | ready | error` (line 77). -/
inductive AgentStatus
  | checking
  | ready
  | error
deriving DecidableEq, Repr

/-- A chat message as constructed at the two build sites in chat-simple.tsx
(lines 227-238 and 335-344); field set taken from those construction sites. -/
structure ChatMessage where
  id : String
  name : String
  text : String
  senderId : String
  roomId : String
  createdAt : Nat
  source : Option String := none
  thought : Option String := none
  actions : Option (List String) := none
  isLoading : Bool := false
deriving DecidableEq, Repr

/-- Payload of a `messageBroadcast` event; field set taken from the reads
performed by `handleMessageBroadcast` (lines 213-247).  Optional fields model
properties that may be absent (`undefined`) on the wire. -/
structure MessageBroadcastData where
  id : Option String := none
  senderId : String
  senderName : Option String := none
  text : String
  roomId : Option String := none
  channelId : Option String := none
  createdAt : Option Nat := none
  source : Option String := none
  thought : Option String := none
  actions : Option (List String) := none
deriving DecidableEq, Repr

/-- Payload of a `controlMessage` event; `handleControlMessage` reads only the
`action` field (lines 250-258). -/
structure ControlMessageData where
  action : String
deriving DecidableEq, Repr

/-- The mutable state of one mounted `Chat` component: every `useState` hook
plus the `initStartedRef` latch (lines 52, 69-80). -/
structure ChatState where
  messages : List ChatMessage
  inputDisabled : Bool
  isAgentThinking : Bool
  isLoadingHistory : Bool
  connectionStatus : ConnStatus
  serverStatus : ServerStatus
  agentStatus : AgentStatus
  userEntity : Option String
  roomId : Option String
  initStarted : Bool
deriving DecidableEq, Repr

/-- JavaScript truthiness of a nullable string: `null`, `undefined` and the
empty string are falsy. -/
def strTruthy : Option String → Bool
  | none => false
  | some s => !(s == "")

/-- JavaScript `a || b` where `a` is a nullable string and `b` a string:
falls through to `b` when `a` is absent or empty. -/
def jsOrStr : Option String → String → String
  | none, d => d
  | some s, d => if s = "" then d else s

/-- JavaScript `String.prototype.trim`: strips whitespace from both ends.
Modelled directly on the character list so that it evaluates by kernel
reduction. -/
def jsTrim (s : String) : String :=
  String.mk
    (((s.data.dropWhile Char.isWhitespace).reverse.dropWhile
        Char.isWhitespace).reverse)

/-- JavaScript `a || b` where `a` is a nullable number: `0`, `null` and
`undefined` are falsy. -/
def jsOrNat : Option Nat → Nat → Nat
  | none, d => d
  | some n, d => if n = 0 then d else n

/-- The well-known all-zero sentinel identifier used as the centralized bus
channel, the default server id and the default world id (lines 48-49, 148,
276, 351). -/
def centralChannelId : String := "00000000-0000-0000-0000-000000000000"

/-- The display name of the local user: `USER_NAME` from the constants
module (staged at the end of src/src/eliza.ts), defined there as the string
literal "User". -/
def USER_NAME : String := "User"

/-- The JavaScript evaluation environment that determines the module-level
`CHAT_SOURCE` constant: in a browser it carries `window.location.hostname`;
on the server it carries the optional `NEXT_PUBLIC_APP_URL` environment
variable. -/
inductive JsEnv
  | browser (hostname : String)
  | server (appUrl : Option String)
deriving DecidableEq, Repr

/-- Removal of the first occurrence of the pattern `https?:\/\/` from a
character list, as performed by `replace(/https?:\/\//, "")` (no global
flag, so only the first match is removed; at each position the alternative
with the optional "s" is tried first, matching the regex engine). -/
def stripSchemeList : List Char → List Char
  | [] => []
  | c :: cs =>
    if "https://".data.isPrefixOf (c :: cs) then
      (c :: cs).drop 8
    else if "http://".data.isPrefixOf (c :: cs) then
      (c :: cs).drop 7
    else
      c :: stripSchemeList cs

/-- The origin tag attached to outbound messages: `CHAT_SOURCE` from the
constants module (staged at the end of src/src/eliza.ts), a module-level
constant evaluated once per load — in a browser it is
`window.location.hostname || "api"`; on the server it is
`process.env.NEXT_PUBLIC_APP_URL?.replace(https-or-http-scheme, "") || "api"`
with the optional chaining yielding "api" when the variable is absent. -/
def CHAT_SOURCE : JsEnv → String
  | JsEnv.browser hostname => if hostname = "" then "api" else hostname
  | JsEnv.server none => "api"
  | JsEnv.server (some u) =>
      let stripped := String.mk (stripSchemeList u.data)
      if stripped = "" then "api" else stripped

/-- A concrete browser environment used to instantiate the send theorems. -/
def localhostEnv : JsEnv := JsEnv.browser "localhost"

/-- Agent classification test of `handleMessageBroadcast` (lines 223-225):
the event is agent-originated when its senderId is the agent identity, or its
channelId or roomId is the all-zero sentinel channel. -/
def isAgentMessage (agentId : String) (data : MessageBroadcastData) : Bool :=
  decide (data.senderId = agentId) ||
  decide (data.channelId = some centralChannelId) ||
  decide (data.roomId = some centralChannelId)

/-- The `ChatMessage` materialized from a broadcast event (lines 227-238).
`freshId` stands for the `uuidv4()` generated when the event carries no id;
`now` stands for `Date.now()`; `roomId` is the closure-captured room id. -/
def broadcastMessage (agentId roomId freshId : String) (now : Nat)
    (data : MessageBroadcastData) : ChatMessage :=
  { id := jsOrStr data.id freshId
    name := jsOrStr data.senderName
      (if isAgentMessage agentId data then "Agent" else "User")
    text := data.text
    senderId := data.senderId
    roomId := jsOrStr data.roomId (jsOrStr data.channelId roomId)
    createdAt := jsOrNat data.createdAt now
    source := data.source
    thought := data.thought
    actions := data.actions
    isLoading := false }

/-- The `handleMessageBroadcast` event handler (lines 213-247): skip own
messages, otherwise materialize a message, append it, and clear the thinking
flag when the message is agent-originated. -/
def handleMessageBroadcast (agentId userEntity roomId freshId : String)
    (now : Nat) (data : MessageBroadcastData) (s : ChatState) : ChatState :=
  if data.senderId = userEntity then
    s
  else
    let message := broadcastMessage agentId roomId freshId now data
    let s1 := { s with messages := s.messages ++ [message] }
    if isAgentMessage agentId data then
      { s1 with isAgentThinking := false }
    else
      s1

/-- The `handleControlMessage` event handler (lines 250-258). -/
def handleControlMessage (data : ControlMessageData) (s : ChatState) :
    ChatState :=
  if data.action = "disable_input" then
    { s with inputDisabled := true }
  else if data.action = "enable_input" then
    { s with inputDisabled := false }
  else
    s

/-- The `handleMessageComplete` event handler (lines 261-265): clears both
the thinking flag and the input lock unconditionally. -/
def handleMessageComplete (s : ChatState) : ChatState :=
  { s with isAgentThinking := false, inputDisabled := false }

/-- Result of one `sendMessage` call: the new component state, the list of
payloads handed to the transport (`sendChannelMessage` arguments: text,
channel id, source tag), and whether the 30-second safety timeout was armed. -/
structure SendOutcome where
  state : ChatState
  sends : List (String × String × String)
  timeoutArmed : Bool
deriving DecidableEq, Repr

/-- The optimistic local message built by `sendMessage` on success
(lines 335-344).  `freshId` stands for `uuidv4()`, `now` for `Date.now()`;
`env` determines the module-level `CHAT_SOURCE` constant. -/
def optimisticMessage (env : JsEnv) (freshId : String) (now : Nat)
    (messageText : String) (s : ChatState) : ChatMessage :=
  { id := freshId
    name := USER_NAME
    text := messageText
    senderId := s.userEntity.getD ""
    roomId := s.roomId.getD ""
    createdAt := now
    source := some (CHAT_SOURCE env)
    isLoading := false }

/-- The `sendMessage` callback (lines 316-365).  The guard mirrors the
source condition `!messageText.trim() || !userEntity || !roomId ||
inputDisabled || connectionStatus !== connected` with JavaScript truthiness
made explicit; on success it appends the optimistic message, raises both
flags, emits exactly one transport send to the central channel and arms the
30-second timeout. -/
def sendMessage (env : JsEnv) (freshId : String) (now : Nat)
    (messageText : String) (s : ChatState) : SendOutcome :=
  if jsTrim messageText = "" ∨ strTruthy s.userEntity = false ∨
      strTruthy s.roomId = false ∨ s.inputDisabled = true ∨
      ¬ s.connectionStatus = ConnStatus.connected then
    { state := s, sends := [], timeoutArmed := false }
  else
    { state :=
        { s with
          messages :=
            s.messages ++ [optimisticMessage env freshId now messageText s]
          isAgentThinking := true
          inputDisabled := true }
      sends := [(messageText, centralChannelId, CHAT_SOURCE env)]
      timeoutArmed := true }

/-- The callback of the 30-second safety timeout armed by `sendMessage`
(lines 358-362): unconditionally re-enables input and clears the thinking
flag.  The source never cancels this timer. -/
def sendTimeoutFire (s : ChatState) : ChatState :=
  { s with inputDisabled := false, isAgentThinking := false }

/-- Result of one run of the history-load effect: the new state and whether
a REST fetch was actually issued. -/
structure HistoryOutcome where
  state : ChatState
  fetchIssued : Bool
deriving DecidableEq, Repr

/-- The history-load effect (lines 291-313).  The guard mirrors
`!roomId || !agentId || connectionStatus !== connected ||
initStartedRef.current`; past the guard the latch is set, a fetch of up to 50
prior messages is issued, and on success (`fetchResult = some loaded`) the
message list is replaced by the fetched list, while on failure
(`fetchResult = none`) the list is left as it is.  The latch field
`initStarted` is never reset anywhere in the source. -/
def historyLoadEffect (agentId : Option String)
    (fetchResult : Option (List ChatMessage)) (s : ChatState) :
    HistoryOutcome :=
  if strTruthy s.roomId = false ∨ strTruthy agentId = false ∨
      ¬ s.connectionStatus = ConnStatus.connected ∨ s.initStarted = true then
    { state := s, fetchIssued := false }
  else
    let s1 := { s with initStarted := true, isLoadingHistory := true }
    match fetchResult with
    | some loaded =>
        { state := { s1 with messages := loaded, isLoadingHistory := false }
          fetchIssued := true }
    | none =>
        { state := { s1 with isLoadingHistory := false }
          fetchIssued := true }

/-- Outcome of the best-effort agent-registration fetch inside
`initializeConnection` (lines 153-177): the response was ok, the response was
not ok (treated as success — the agent may already be in the channel), or the
fetch threw (caught by the inner catch block). -/
inductive RegOutcome
  | ok
  | notOk
  | threw
deriving DecidableEq, Repr

/-- The agent status resulting from each registration outcome
(lines 164-177): ok and non-ok responses both yield `ready`; a thrown error
yields `error`.  In every case execution continues past the inner catch. -/
def regStatus : RegOutcome → AgentStatus
  | RegOutcome.ok => AgentStatus.ready
  | RegOutcome.notOk => AgentStatus.ready
  | RegOutcome.threw => AgentStatus.error

/-- Result of `initializeConnection`: the new state, whether
`socketIOManager.initialize` (the transport connect call) was invoked, and
whether the 1-second `checkConnection` polling loop was started. -/
structure ConnectOutcome where
  state : ChatState
  transportInitialized : Bool
  pollingStarted : Bool
deriving DecidableEq, Repr

/-- The `initializeConnection` sequence (lines 142-201): set phase to
connecting and agent status to checking, run the registration step whose
errors are absorbed by its own catch block, then initialize the transport and
start the connection polling — the last two steps run for every registration
outcome. -/
def initializeConnection (o : RegOutcome) (s : ChatState) : ConnectOutcome :=
  let s1 := { s with
    connectionStatus := ConnStatus.connecting
    agentStatus := AgentStatus.checking }
  let s2 := { s1 with agentStatus := regStatus o }
  { state := s2, transportInitialized := true, pollingStarted := true }

/-- One step of the `checkConnection` polling loop (lines 184-191): when the
socket reports connected, the phase becomes connected; otherwise the state is
unchanged and another check is scheduled one second later (second component
true). -/
def checkConnection (isSocketConnected : Bool) (s : ChatState) :
    ChatState × Bool :=
  if isSocketConnected then
    ({ s with connectionStatus := ConnStatus.connected }, false)
  else
    (s, true)

/-- A concrete fully-connected state used to instantiate theorems with
hypotheses on small inputs: identity and room resolved, phase connected,
both flags clear, empty transcript. -/
def readyState : ChatState :=
  { messages := []
    inputDisabled := false
    isAgentThinking := false
    isLoadingHistory := false
    connectionStatus := ConnStatus.connected
    serverStatus := ServerStatus.online
    agentStatus := AgentStatus.ready
    userEntity := some "user-1"
    roomId := some "room-1"
    initStarted := true }

/-- The classification test evaluates to true exactly on the three-way
disjunction it is compiled from. -/
theorem isAgentMessage_eq_true (agentId : String)
    (data : MessageBroadcastData)
    (h : data.senderId = agentId ∨ data.channelId = some centralChannelId ∨
         data.roomId = some centralChannelId) :
    isAgentMessage agentId data = true := by
  unfold isAgentMessage
  rcases h with h | h | h <;> simp [h]

/-- C1: Self-echo suppression — a broadcast event whose senderId equals the
local user identity leaves the component state completely unchanged: nothing
is appended to the message list and no flag moves, so an optimistically
appended local message is never duplicated by its own echoed broadcast. -/
theorem self_echo_suppression (agentId userEntity roomId freshId : String)
    (now : Nat) (data : MessageBroadcastData) (s : ChatState)
    (h : data.senderId = userEntity) :
    handleMessageBroadcast agentId userEntity roomId freshId now data s = s := by
  unfold handleMessageBroadcast
  rw [if_pos h]

/-- Witness for C1 at a concrete echoed broadcast. -/
theorem self_echo_suppression_witness :
    handleMessageBroadcast "agent-1" "user-1" "room-1" "f1" 2
      { senderId := "user-1", text := "hello" } readyState = readyState :=
  self_echo_suppression "agent-1" "user-1" "room-1" "f1" 2
    { senderId := "user-1", text := "hello" } readyState rfl

/-- C2: Agent classification — a broadcast event from another sender that is
agent-originated (senderId equals the agent identity, or its channel or room
identifier is the all-zero sentinel) clears the thinking flag and appends
exactly one materialized message; when the event carries no sender name the
display name defaults to "Agent". -/
theorem agent_classification (agentId userEntity roomId freshId : String)
    (now : Nat) (data : MessageBroadcastData) (s : ChatState)
    (hne : ¬ data.senderId = userEntity)
    (hag : data.senderId = agentId ∨ data.channelId = some centralChannelId ∨
           data.roomId = some centralChannelId) :
    (handleMessageBroadcast agentId userEntity roomId freshId now data
        s).isAgentThinking = false ∧
    (handleMessageBroadcast agentId userEntity roomId freshId now data
        s).messages =
      s.messages ++ [broadcastMessage agentId roomId freshId now data] ∧
    (data.senderName = none →
      (broadcastMessage agentId roomId freshId now data).name = "Agent") := by
  have hA := isAgentMessage_eq_true agentId data hag
  refine ⟨?_, ?_, ?_⟩
  · simp [handleMessageBroadcast, hne, hA]
  · simp [handleMessageBroadcast, hne, hA]
  · intro hn
    simp [broadcastMessage, hn, hA, jsOrStr]

/-- Witness for C2 at a concrete agent broadcast with no sender name. -/
theorem agent_classification_witness :
    (handleMessageBroadcast "agent-1" "user-1" "room-1" "f1" 2
        { senderId := "agent-1", text := "reply" }
        readyState).isAgentThinking = false ∧
    (handleMessageBroadcast "agent-1" "user-1" "room-1" "f1" 2
        { senderId := "agent-1", text := "reply" } readyState).messages =
      readyState.messages ++
        [broadcastMessage "agent-1" "room-1" "f1" 2
          { senderId := "agent-1", text := "reply" }] ∧
    ((⟨none, "agent-1", none, "reply", none, none, none, none, none,
        none⟩ : MessageBroadcastData).senderName = none →
      (broadcastMessage "agent-1" "room-1" "f1" 2
        { senderId := "agent-1", text := "reply" }).name = "Agent") :=
  agent_classification "agent-1" "user-1" "room-1" "f1" 2
    { senderId := "agent-1", text := "reply" } readyState
    (by decide) (Or.inl rfl)

/-- C3: Send precondition gating — when the text trims to empty, the identity
is null, the room id is null, input is disabled, or the connection phase is
not connected, `sendMessage` is a silent no-op: the state is unchanged, no
transport send is emitted, and no timeout is armed. -/
theorem send_precondition_gating (env : JsEnv) (freshId : String)
    (now : Nat) (messageText : String) (s : ChatState)
    (h : jsTrim messageText = "" ∨ s.userEntity = none ∨ s.roomId = none ∨
         s.inputDisabled = true ∨
         ¬ s.connectionStatus = ConnStatus.connected) :
    sendMessage env freshId now messageText s =
      { state := s, sends := [], timeoutArmed := false } := by
  have hg : jsTrim messageText = "" ∨ strTruthy s.userEntity = false ∨
      strTruthy s.roomId = false ∨ s.inputDisabled = true ∨
      ¬ s.connectionStatus = ConnStatus.connected := by
    rcases h with h | h | h | h | h
    · exact Or.inl h
    · exact Or.inr (Or.inl (by rw [h]; rfl))
    · exact Or.inr (Or.inr (Or.inl (by rw [h]; rfl)))
    · exact Or.inr (Or.inr (Or.inr (Or.inl h)))
    · exact Or.inr (Or.inr (Or.inr (Or.inr h)))
  unfold sendMessage
  rw [if_pos hg]

/-- Witness for C3 at whitespace-only text on a connected state. -/
theorem send_precondition_gating_witness :
    sendMessage localhostEnv "id1" 1 " " readyState =
      { state := readyState, sends := [], timeoutArmed := false } :=
  send_precondition_gating localhostEnv "id1" 1 " " readyState
    (Or.inl (by decide))

/-- C4: Send success postcondition — with every precondition satisfied,
`sendMessage` appends exactly one optimistic message carrying the fresh id,
the local identity as sender and the origin tag `CHAT_SOURCE env` (the
module-level constant, fixed for the whole load since it depends only on the
environment), raises both the thinking flag and the input lock, emits exactly
one transport send of the text to the all-zero central channel carrying the
same tag, and arms the safety timeout. -/
theorem send_success (env : JsEnv) (freshId : String) (now : Nat)
    (messageText : String) (s : ChatState)
    (h1 : ¬ jsTrim messageText = "")
    (h2 : strTruthy s.userEntity = true)
    (h3 : strTruthy s.roomId = true)
    (h4 : s.inputDisabled = false)
    (h5 : s.connectionStatus = ConnStatus.connected) :
    sendMessage env freshId now messageText s =
      { state :=
          { s with
            messages :=
              s.messages ++ [optimisticMessage env freshId now messageText s]
            isAgentThinking := true
            inputDisabled := true }
        sends := [(messageText, centralChannelId, CHAT_SOURCE env)]
        timeoutArmed := true } ∧
    (optimisticMessage env freshId now messageText s).id = freshId ∧
    s.userEntity =
      some (optimisticMessage env freshId now messageText s).senderId ∧
    (optimisticMessage env freshId now messageText s).source =
      some (CHAT_SOURCE env) := by
  have hg : ¬ (jsTrim messageText = "" ∨ strTruthy s.userEntity = false ∨
      strTruthy s.roomId = false ∨ s.inputDisabled = true ∨
      ¬ s.connectionStatus = ConnStatus.connected) := by
    simp [h1, h2, h3, h4, h5]
  refine ⟨?_, rfl, ?_, rfl⟩
  · unfold sendMessage
    rw [if_neg hg]
  · cases hu : s.userEntity with
    | none => rw [hu] at h2; simp [strTruthy] at h2
    | some u => simp [optimisticMessage, hu]

/-- Witness for C4 at the concrete send of "hi" from the ready state. -/
theorem send_success_witness :
    sendMessage localhostEnv "id1" 1 "hi" readyState =
      { state :=
          { readyState with
            messages := [optimisticMessage localhostEnv "id1" 1 "hi" readyState]
            isAgentThinking := true
            inputDisabled := true }
        sends := [("hi", centralChannelId, CHAT_SOURCE localhostEnv)]
        timeoutArmed := true } :=
  (send_success localhostEnv "id1" 1 "hi" readyState (by decide) (by decide)
    (by decide) rfl rfl).1

/-- State after a first successful send from the ready state. -/
def afterFirstSend : ChatState :=
  (sendMessage localhostEnv "id1" 1 "hi" readyState).state

/-- State after the completion signal terminating the first turn. -/
def afterCompletion : ChatState := handleMessageComplete afterFirstSend

/-- State after a second successful send, made while the first 30-second
timeout is still pending (the source never cancels it). -/
def afterSecondSend : ChatState :=
  (sendMessage localhostEnv "id2" 2 "again" afterCompletion).state

/-- C5 counterexample: the first send arms a timeout; a completion signal (a
terminal event) arrives before that timeout fires; a second send then raises
both flags again; when the first timeout finally fires it still clears both
flags — an observable clearing effect even though a terminal event preceded
it, refuting the clause that the clearing effect occurs only when no terminal
event preceded the timeout. -/
theorem send_timeout_uncancelled_cex :
    (sendMessage localhostEnv "id1" 1 "hi" readyState).timeoutArmed = true ∧
    afterCompletion.isAgentThinking = false ∧
    afterCompletion.inputDisabled = false ∧
    afterSecondSend.inputDisabled = true ∧
    afterSecondSend.isAgentThinking = true ∧
    (sendTimeoutFire afterSecondSend).inputDisabled = false ∧
    (sendTimeoutFire afterSecondSend).isAgentThinking = false := by decide

/-- C5 as amended: every successful send arms the 30-second timeout, whose
callback unconditionally clears both flags and never touches the message
list; if the flags are already clear when it fires (a terminal event arrived
and no later send re-raised them) the firing is a no-op; and after a send
with no server response the firing leaves both flags false with exactly the
one optimistic message appended. -/
theorem send_timeout_recovery (env : JsEnv) (freshId : String) (now : Nat)
    (messageText : String) (s : ChatState)
    (h1 : ¬ jsTrim messageText = "")
    (h2 : strTruthy s.userEntity = true)
    (h3 : strTruthy s.roomId = true)
    (h4 : s.inputDisabled = false)
    (h5 : s.connectionStatus = ConnStatus.connected) :
    (sendMessage env freshId now messageText s).timeoutArmed = true ∧
    sendTimeoutFire (sendMessage env freshId now messageText s).state =
      { s with
        messages :=
          s.messages ++ [optimisticMessage env freshId now messageText s]
        inputDisabled := false
        isAgentThinking := false } ∧
    (∀ t : ChatState, t.isAgentThinking = false → t.inputDisabled = false →
      sendTimeoutFire t = t) ∧
    (∀ t : ChatState, (sendTimeoutFire t).messages = t.messages) := by
  have hmain := (send_success env freshId now messageText s h1 h2 h3 h4 h5).1
  refine ⟨?_, ?_, ?_, fun t => rfl⟩
  · rw [hmain]
  · rw [hmain]
    rfl
  · intro t ht hd
    cases t
    simp_all [sendTimeoutFire]

/-- Witness for the amended C5 at the concrete send of "hi" from the ready
state. -/
theorem send_timeout_recovery_witness :
    sendTimeoutFire (sendMessage localhostEnv "id1" 1 "hi" readyState).state =
      { readyState with
        messages := [optimisticMessage localhostEnv "id1" 1 "hi" readyState]
        inputDisabled := false
        isAgentThinking := false } :=
  (send_timeout_recovery localhostEnv "id1" 1 "hi" readyState (by decide)
    (by decide) (by decide) rfl rfl).2.1

/-- First of three history messages used in the history-load scenarios. -/
def histMsg1 : ChatMessage :=
  { id := "h1", name := "User", text := "q1", senderId := "user-1",
    roomId := "K1", createdAt := 1 }

/-- Second of three history messages used in the history-load scenarios. -/
def histMsg2 : ChatMessage :=
  { id := "h2", name := "Agent", text := "a1", senderId := "agent-1",
    roomId := "K1", createdAt := 2 }

/-- Third of three history messages used in the history-load scenarios. -/
def histMsg3 : ChatMessage :=
  { id := "h3", name := "User", text := "q2", senderId := "user-1",
    roomId := "K1", createdAt := 3 }

/-- A freshly mounted connected state for room K1 whose history latch is
still unset. -/
def mountState : ChatState :=
  { readyState with
    roomId := some "K1"
    initStarted := false
    isLoadingHistory := true }

/-- State after the first, successful history load in room K1. -/
def afterFirstLoad : ChatState :=
  (historyLoadEffect (some "agent-1") (some [histMsg1, histMsg2, histMsg3])
    mountState).state

/-- The same component after its session key changes from K1 to K2. -/
def afterRoomChange : ChatState :=
  { afterFirstLoad with roomId := some "K2" }

/-- C6 counterexample: the first run in room K1 issues the fetch and replaces
the list, but after the session key changes to K2 the latch is still set, so
the effect issues no fetch and changes nothing — the latch does not re-arm
when the session key changes, refuting that clause of the claim. -/
theorem history_latch_no_rearm_cex :
    (historyLoadEffect (some "agent-1")
        (some [histMsg1, histMsg2, histMsg3]) mountState).fetchIssued = true ∧
    afterFirstLoad.messages = [histMsg1, histMsg2, histMsg3] ∧
    afterRoomChange.roomId ≠ afterFirstLoad.roomId ∧
    (historyLoadEffect (some "agent-1") (some [histMsg1])
        afterRoomChange).fetchIssued = false ∧
    (historyLoadEffect (some "agent-1") (some [histMsg1])
        afterRoomChange).state = afterRoomChange := by decide

/-- C6 as amended: with a non-null room id and agent id, phase connected and
the latch unset, one run of the history effect issues the fetch, sets the
latch, and on success replaces (does not merge) the message list with the
fetched list, while on failure it leaves the list as it is; any later run
finds the latch set and is a no-op — the fetch runs at most once per mounted
component, and the latch never re-arms, not even when the session key
changes. -/
theorem history_load_once_replacing (agentId : Option String)
    (loaded : List ChatMessage) (s : ChatState)
    (h1 : strTruthy s.roomId = true)
    (h2 : strTruthy agentId = true)
    (h3 : s.connectionStatus = ConnStatus.connected)
    (h4 : s.initStarted = false) :
    historyLoadEffect agentId (some loaded) s =
      { state := { s with
                     messages := loaded
                     initStarted := true
                     isLoadingHistory := false }
        fetchIssued := true } ∧
    historyLoadEffect agentId none s =
      { state := { s with initStarted := true, isLoadingHistory := false }
        fetchIssued := true } ∧
    (∀ (a : Option String) (f : Option (List ChatMessage)) (t : ChatState),
      t.initStarted = true →
      historyLoadEffect a f t = { state := t, fetchIssued := false }) := by
  have hg : ¬ (strTruthy s.roomId = false ∨ strTruthy agentId = false ∨
      ¬ s.connectionStatus = ConnStatus.connected ∨ s.initStarted = true) := by
    simp [h1, h2, h3, h4]
  refine ⟨?_, ?_, ?_⟩
  · unfold historyLoadEffect
    rw [if_neg hg]
  · unfold historyLoadEffect
    rw [if_neg hg]
  · intro a f t ht
    unfold historyLoadEffect
    rw [if_pos (Or.inr (Or.inr (Or.inr ht)))]

/-- Witness for the amended C6: a successful three-message load into the
freshly mounted K1 state replaces the empty list with exactly those three
messages in their returned order. -/
theorem history_load_once_replacing_witness :
    historyLoadEffect (some "agent-1") (some [histMsg1, histMsg2, histMsg3])
        mountState =
      { state := { mountState with
                     messages := [histMsg1, histMsg2, histMsg3]
                     initStarted := true
                     isLoadingHistory := false }
        fetchIssued := true } :=
  (history_load_once_replacing (some "agent-1") [histMsg1, histMsg2, histMsg3]
    mountState (by decide) (by decide) rfl rfl).1

/-- C7: Completion-signal handling and idempotence — every completion event
clears both flags unconditionally and leaves the message list untouched, and
a repeated completion event has no further observable effect. -/
theorem completion_idempotent (s : ChatState) :
    (handleMessageComplete s).isAgentThinking = false ∧
    (handleMessageComplete s).inputDisabled = false ∧
    (handleMessageComplete s).messages = s.messages ∧
    handleMessageComplete (handleMessageComplete s) = handleMessageComplete s :=
  ⟨rfl, rfl, rfl, rfl⟩

/-- C8: Registration is non-fatal — for every outcome of the best-effort
registration call (ok, non-ok, or thrown), `initializeConnection` still
initializes the transport and starts the 1-second connection polling, and the
outcome is reflected solely in the agent status flag (ready for ok and
non-ok responses, error for a thrown fetch); all other state fields are those
of the common connect sequence. -/
theorem registration_non_fatal (o : RegOutcome) (s : ChatState) :
    initializeConnection o s =
      { state := { s with
                     connectionStatus := ConnStatus.connecting
                     agentStatus := regStatus o }
        transportInitialized := true
        pollingStarted := true } ∧
    (regStatus RegOutcome.ok = AgentStatus.ready ∧
     regStatus RegOutcome.notOk = AgentStatus.ready ∧
     regStatus RegOutcome.threw = AgentStatus.error) :=
  ⟨rfl, rfl, rfl, rfl⟩

/-- Appending one element whose image is fresh preserves distinctness of the
mapped list. -/
theorem nodup_map_append_one {α β : Type} [DecidableEq β] (f : α → β)
    (l : List α) (m : α)
    (h : (l.map f).Nodup) (hm : f m ∉ l.map f) :
    ((l ++ [m]).map f).Nodup := by
  rw [List.map_append]
  simp [List.nodup_append, h, hm]

/-- A connected state already holding one message with id m1, used in the
duplicate-id scenario. -/
def dupState : ChatState :=
  { readyState with
    messages := [{ id := "m1", name := "User", text := "hi",
                   senderId := "user-1", roomId := "room-1", createdAt := 1 }] }

/-- A broadcast event carrying the server-supplied id m1 that is already
present in the stored list. -/
def dupBroadcast : MessageBroadcastData :=
  { id := some "m1", senderId := "agent-1", text := "dup" }

/-- C9 counterexample: the broadcast handler performs no duplicate check, so
a live broadcast carrying a server-supplied id already present in the list is
appended anyway and the list then holds two messages with the same id —
refuting that the broadcast append site preserves id uniqueness. -/
theorem unique_ids_broadcast_cex :
    ((handleMessageBroadcast "agent-1" "user-1" "room-1" "fresh" 2
        dupBroadcast dupState).messages.map ChatMessage.id) = ["m1", "m1"] ∧
    ¬ (((handleMessageBroadcast "agent-1" "user-1" "room-1" "fresh" 2
        dupBroadcast dupState).messages.map ChatMessage.id).Nodup) := by decide

/-- C9 as amended: id uniqueness is preserved by the history replacement
whenever the fetched list has distinct ids, by the optimistic append whenever
the freshly generated id is not already stored, and by the broadcast append
whenever the materialized id (the server-supplied id, or the fresh id when
the event carries none) is not already stored; the broadcast handler itself
performs no duplicate check, so a broadcast carrying an already-stored
server-supplied id violates uniqueness. -/
theorem unique_ids_preserved (env : JsEnv) (agentId userEntity roomId freshId
    freshId2 : String) (now now2 : Nat) (messageText : String)
    (data : MessageBroadcastData) (aid : Option String)
    (loaded : List ChatMessage) (s : ChatState)
    (hnodup : (s.messages.map ChatMessage.id).Nodup)
    (hb : jsOrStr data.id freshId ∉ s.messages.map ChatMessage.id)
    (hs : freshId2 ∉ s.messages.map ChatMessage.id)
    (hl : (loaded.map ChatMessage.id).Nodup) :
    ((handleMessageBroadcast agentId userEntity roomId freshId now data
        s).messages.map ChatMessage.id).Nodup ∧
    ((sendMessage env freshId2 now2 messageText s).state.messages.map
        ChatMessage.id).Nodup ∧
    ((historyLoadEffect aid (some loaded) s).state.messages.map
        ChatMessage.id).Nodup := by
  refine ⟨?_, ?_, ?_⟩
  · unfold handleMessageBroadcast
    by_cases h : data.senderId = userEntity
    · rw [if_pos h]
      exact hnodup
    · rw [if_neg h]
      by_cases hA : isAgentMessage agentId data = true
      · simp only [hA, if_true]
        exact nodup_map_append_one ChatMessage.id s.messages _ hnodup hb
      · simp only [hA, if_false]
        exact nodup_map_append_one ChatMessage.id s.messages _ hnodup hb
  · unfold sendMessage
    by_cases hg : jsTrim messageText = "" ∨ strTruthy s.userEntity = false ∨
        strTruthy s.roomId = false ∨ s.inputDisabled = true ∨
        ¬ s.connectionStatus = ConnStatus.connected
    · rw [if_pos hg]
      exact hnodup
    · rw [if_neg hg]
      exact nodup_map_append_one ChatMessage.id s.messages _ hnodup hs
  · unfold historyLoadEffect
    by_cases hg : strTruthy s.roomId = false ∨ strTruthy aid = false ∨
        ¬ s.connectionStatus = ConnStatus.connected ∨ s.initStarted = true
    · rw [if_pos hg]
      exact hnodup
    · rw [if_neg hg]
      exact hl

/-- Witness for the amended C9 at concrete fresh ids over the one-message
state. -/
theorem unique_ids_preserved_witness :
    ((handleMessageBroadcast "agent-1" "user-1" "room-1" "fresh" 2
        { senderId := "agent-1", text := "reply" }
        dupState).messages.map ChatMessage.id).Nodup ∧
    ((sendMessage localhostEnv "fresh2" 3 "hi" dupState).state.messages.map
        ChatMessage.id).Nodup ∧
    ((historyLoadEffect (some "agent-1") (some [histMsg1, histMsg2, histMsg3])
        dupState).state.messages.map ChatMessage.id).Nodup :=
  unique_ids_preserved localhostEnv "agent-1" "user-1" "room-1" "fresh"
    "fresh2" 2 3 "hi"
    { senderId := "agent-1", text := "reply" } (some "agent-1")
    [histMsg1, histMsg2, histMsg3] dupState
    (by decide) (by decide) (by decide) (by decide)

/-- C10: Frame property of the broadcast handler — an agent-classified
broadcast from another sender mutates only the message list and the thinking
flag: the input lock, connection phase, server status, agent status, user
identity, room id, history latch and loading flag are all unchanged; input is
re-enabled only by an enable_input control message, a completion event, or
the firing of the send timeout. -/
theorem broadcast_frame (agentId userEntity roomId freshId : String)
    (now : Nat) (data : MessageBroadcastData) (s : ChatState)
    (hne : ¬ data.senderId = userEntity)
    (hag : isAgentMessage agentId data = true) :
    (handleMessageBroadcast agentId userEntity roomId freshId now data
        s).inputDisabled = s.inputDisabled ∧
    (handleMessageBroadcast agentId userEntity roomId freshId now data
        s).connectionStatus = s.connectionStatus ∧
    (handleMessageBroadcast agentId userEntity roomId freshId now data
        s).serverStatus = s.serverStatus ∧
    (handleMessageBroadcast agentId userEntity roomId freshId now data
        s).agentStatus = s.agentStatus ∧
    (handleMessageBroadcast agentId userEntity roomId freshId now data
        s).userEntity = s.userEntity ∧
    (handleMessageBroadcast agentId userEntity roomId freshId now data
        s).roomId = s.roomId ∧
    (handleMessageBroadcast agentId userEntity roomId freshId now data
        s).initStarted = s.initStarted ∧
    (handleMessageBroadcast agentId userEntity roomId freshId now data
        s).isLoadingHistory = s.isLoadingHistory ∧
    (handleControlMessage { action := "enable_input" } s).inputDisabled =
      false ∧
    (handleMessageComplete s).inputDisabled = false ∧
    (sendTimeoutFire s).inputDisabled = false := by
  unfold handleMessageBroadcast handleControlMessage handleMessageComplete
    sendTimeoutFire
  rw [if_neg hne]
  simp [hag]

/-- Witness for C10 at a concrete agent broadcast over the ready state. -/
theorem broadcast_frame_witness :
    (handleMessageBroadcast "agent-1" "user-1" "room-1" "f1" 2
        { senderId := "agent-1", text := "reply" }
        readyState).inputDisabled = readyState.inputDisabled ∧
    (handleMessageBroadcast "agent-1" "user-1" "room-1" "f1" 2
        { senderId := "agent-1", text := "reply" }
        readyState).connectionStatus = readyState.connectionStatus ∧
    (handleMessageBroadcast "agent-1" "user-1" "room-1" "f1" 2
        { senderId := "agent-1", text := "reply" }
        readyState).serverStatus = readyState.serverStatus ∧
    (handleMessageBroadcast "agent-1" "user-1" "room-1" "f1" 2
        { senderId := "agent-1", text := "reply" }
        readyState).agentStatus = readyState.agentStatus ∧
    (handleMessageBroadcast "agent-1" "user-1" "room-1" "f1" 2
        { senderId := "agent-1", text := "reply" }
        readyState).userEntity = readyState.userEntity ∧
    (handleMessageBroadcast "agent-1" "user-1" "room-1" "f1" 2
        { senderId := "agent-1", text := "reply" }
        readyState).roomId = readyState.roomId ∧
    (handleMessageBroadcast "agent-1" "user-1" "room-1" "f1" 2
        { senderId := "agent-1", text := "reply" }
        readyState).initStarted = readyState.initStarted ∧
    (handleMessageBroadcast "agent-1" "user-1" "room-1" "f1" 2
        { senderId := "agent-1", text := "reply" }
        readyState).isLoadingHistory = readyState.isLoadingHistory ∧
    (handleControlMessage { action := "enable_input" }
        readyState).inputDisabled = false ∧
    (handleMessageComplete readyState).inputDisabled = false ∧
    (sendTimeoutFire readyState).inputDisabled = false :=
  broadcast_frame "agent-1" "user-1" "room-1" "f1" 2
    { senderId := "agent-1", text := "reply" } readyState
    (by decide) (by decide)

end ElizaChat
